import Mathlib

/- Shallow embedding of the two serverless lead-capture handlers of the
   squamish-neighbourhoods-guide repository:
   - src/api/submit-lead.js (email-only variant), embedded as EmailOnly.*;
   - src/unnamed/part_000 (multiplexed variant with phone verification),
     embedded as Mux.*.
   External HTTP calls (Lofty CRM, Resend email, Twilio SMS) are modelled by
   a World record fixing the outcome each fetch would produce during the
   request; configuration (process.env) by a Config record; JavaScript
   string truthiness by the truthy predicate on Option String.  The bodies
   of outbound payloads (JSON fields, HTML template) do not influence
   control flow and are not modelled; each outbound fetch is recorded as an
   OutboundCall so that the no-downstream-calls claims are expressible. -/

/-- JavaScript truthiness of an optional string field: undefined and the
empty string are falsy, every other string is truthy. -/
def truthy : Option String → Bool
  | none => false
  | some s => s != ""

/-- The JSON body of an inbound request; absent fields are none. -/
structure ReqBody where
  action : Option String := none
  firstName : Option String := none
  lastName : Option String := none
  email : Option String := none
  phone : Option String := none
  source : Option String := none
  timestamp : Option String := none

/-- An inbound HTTP request: method plus parsed JSON body. -/
structure Request where
  method : String
  body : ReqBody

/-- Environment configuration (process.env reads used by the handlers). -/
structure Config where
  loftyApiKey : Option String := none
  resendApiKey : Option String := none
  gammaUrl : Option String := none
  twilioAccountSid : Option String := none
  twilioAuthToken : Option String := none
  twilioPhoneNumber : Option String := none

/-- Outcome of one outbound fetch: either the promise rejects (network
transport failure) or a response with the given HTTP status arrives. -/
inductive FetchResult where
  | transportError
  | response (status : Nat)
deriving DecidableEq

/-- fetch Response.ok: the status is in the range 200-299.  A transport
error has no response object, hence not ok. -/
def FetchResult.isOk : FetchResult → Bool
  | .transportError => false
  | .response s => 200 ≤ s && s ≤ 299

/-- The ambient nondeterminism of one request: the outcome each external
endpoint would produce if called, Date.now, and the two Math.random draws
(randFrag is Math.random().toString(36).substring(2, 15) used by the token
generator; rand is the raw Math.random() value used by the verification
code, a rational since every IEEE double in the unit interval is one). -/
structure World where
  loftyResult : FetchResult := .transportError
  resendResult : FetchResult := .transportError
  twilioResult : FetchResult := .transportError
  now : Nat := 0
  randFrag : String := ""
  rand : ℚ := 0

/-- The outbound integrations a request may call. -/
inductive OutboundCall where
  | lofty
  | resend
  | twilio
deriving DecidableEq

/-- Result of running a try block: normal completion or a thrown error. -/
inductive CallOutcome where
  | ok
  | threw (msg : String)
deriving DecidableEq

/-- A catch block that logs and does not re-throw. -/
def catchAll : CallOutcome → CallOutcome := fun _ => .ok

/-- A catch block that logs and re-throws the error. -/
def catchRethrow : CallOutcome → CallOutcome := id

/-- await Promise.all on the pair: rejects if either operand rejects. -/
def promiseAllOutcome : CallOutcome → CallOutcome → CallOutcome
  | .ok, .ok => .ok
  | .threw m, _ => .threw m
  | .ok, .threw m => .threw m

/-- The JSON fields appearing across all response bodies of both
handlers; a field is none when the body does not carry it. -/
structure RespBody where
  error : Option String := none
  success : Option Bool := none
  accessUrl : Option String := none
  message : Option String := none
  code : Option String := none
deriving DecidableEq

/-- What a sub-handler sends: res.status(s).json(body). -/
structure Reply where
  status : Nat
  body : RespBody
deriving DecidableEq

/-- A complete HTTP response: status, headers set on res, JSON body. -/
structure HttpResponse where
  status : Nat
  headers : List (String × String)
  body : RespBody
deriving DecidableEq

/-- The three res.setHeader calls both handlers perform for CORS. -/
def corsHeaders : List (String × String) :=
  [("Access-Control-Allow-Origin", "*"),
   ("Access-Control-Allow-Methods", "POST"),
   ("Access-Control-Allow-Headers", "Content-Type")]

/-- Digit character for base-36 rendering, as in JavaScript
Number.prototype.toString(36): 0-9 then lowercase a-z. -/
def base36Char (d : Nat) : Char :=
  if d < 10 then Char.ofNat (48 + d) else Char.ofNat (87 + d)

/-- Fuel-driven most-significant-first base-36 digit accumulation; with
fuel at least 1 it renders n exactly as n.toString(36) does. -/
def base36Core : Nat → Nat → List Char → List Char
  | 0, _, acc => acc
  | fuel+1, n, acc =>
    let d := base36Char (n % 36)
    if n / 36 = 0 then d :: acc
    else base36Core fuel (n / 36) (d :: acc)

/-- Embeds n.toString(36) for a nonnegative integer n. -/
def natToBase36 (n : Nat) : String := ⟨base36Core (n + 1) n []⟩

/-- A character that can appear in a base-36 rendering: 0-9 or a-z. -/
def isBase36Char (c : Char) : Bool :=
  ('0' ≤ c && c ≤ '9') || ('a' ≤ c && c ≤ 'z')

/-- Every character of the string is a base-36 digit character. -/
def isBase36String (s : String) : Bool := s.data.all isBase36Char

/-- Embeds generateAccessToken (identical in both source files):
Date.now().toString(36) + "-" + Math.random().toString(36).substring(2, 15),
with the two nondeterministic inputs passed explicitly. -/
def generateAccessToken (now : Nat) (randFrag : String) : String :=
  natToBase36 now ++ "-" ++ randFrag

/-- Embeds process.env.GAMMA_URL || fallback (JS: falsy env values,
absent or empty, select the hardcoded fallback). -/
def resolveGammaUrl (cfg : Config) (fallback : String) : String :=
  match cfg.gammaUrl with
  | some s => if s != "" then s else fallback
  | none => fallback

/-- Decimal digit character, as in Number.prototype.toString(). -/
def digitChar10 (d : Nat) : Char := Char.ofNat (48 + d)

/-- Fuel-driven most-significant-first decimal digit accumulation. -/
def decimalCore : Nat → Nat → List Char → List Char
  | 0, _, acc => acc
  | fuel+1, n, acc =>
    let d := digitChar10 (n % 10)
    if n / 10 = 0 then d :: acc
    else decimalCore fuel (n / 10) (d :: acc)

/-- Embeds n.toString() for a nonnegative integer n. -/
def natToDecimal (n : Nat) : String := ⟨decimalCore (n + 1) n []⟩

/-- Embeds Math.floor(100000 + Math.random() * 900000): the numeric value
of the verification code, as a function of the Math.random() draw. -/
def verificationCode (r : ℚ) : Nat :=
  (Int.floor ((100000 : ℚ) + r * 900000)).toNat

/- ==========================================================
   Multiplexed variant: src/unnamed/part_000
   ========================================================== -/

/-- Embeds the try block of sendToLofty in part_000: fetch the Lofty
leads endpoint; a transport failure rejects, and a non-2xx response
raises "Lofty API error" after logging status and body. -/
def Mux.loftyTryBlock (w : World) : CallOutcome :=
  if w.loftyResult.isOk then .ok else .threw "Lofty API error"

/-- Embeds sendToLofty of part_000 (lines 134-176): no API key skips the
integration; otherwise one fetch to Lofty is made and the catch block
logs without re-throwing, so the CRM call never throws to the caller.
Returns the outbound calls made and the outcome seen by the caller. -/
def Mux.sendToLofty (cfg : Config) (w : World) : List OutboundCall × CallOutcome :=
  if !(truthy cfg.loftyApiKey) then ([], .ok)
  else ([.lofty], catchAll (Mux.loftyTryBlock w))

/-- Embeds the try block of sendAccessEmail in part_000: fetch the Resend
send endpoint; transport failure rejects, non-2xx raises "Resend API
error" after logging status and body. -/
def Mux.emailTryBlock (w : World) : CallOutcome :=
  if w.resendResult.isOk then .ok else .threw "Resend API error"

/-- Embeds sendAccessEmail of part_000 (lines 181-215): no API key skips
the email; otherwise one fetch to Resend is made and the catch block logs
and then re-throws, so any failure propagates to the caller. -/
def Mux.sendAccessEmail (cfg : Config) (w : World) : List OutboundCall × CallOutcome :=
  if !(truthy cfg.resendApiKey) then ([], .ok)
  else ([.resend], catchRethrow (Mux.emailTryBlock w))

/-- Embeds handleLeadSubmission of part_000 (lines 92-129): require
firstName, lastName, email and phone truthy, build the access grant, run
sendToLofty and sendAccessEmail under Promise.all, answer 200 on normal
completion and 500 "Failed to process lead" if the pair rejected. -/
def Mux.handleLeadSubmission (cfg : Config) (w : World) (b : ReqBody) :
    Reply × List OutboundCall :=
  if !(truthy b.firstName) || !(truthy b.lastName) || !(truthy b.email)
      || !(truthy b.phone) then
    ({ status := 400, body := { error := some "Missing required fields" } }, [])
  else
    let accessToken := generateAccessToken w.now w.randFrag
    let accessUrl := resolveGammaUrl cfg
        "https://gamma.app/docs/Squamish-Neighbourhood-Guide-Your-Gateway-to-the-Outdoor-Capital--fe8mmxzefxjrz55"
        ++ "?ref=" ++ accessToken
    let lofty := Mux.sendToLofty cfg w
    let email := Mux.sendAccessEmail cfg w
    match promiseAllOutcome lofty.2 email.2 with
    | .ok =>
      ({ status := 200,
         body := { success := some true, accessUrl := some accessUrl,
                   message := some "Lead processed successfully" } },
       lofty.1 ++ email.1)
    | .threw _ =>
      ({ status := 500, body := { error := some "Failed to process lead" } },
       lofty.1 ++ email.1)

/-- Embeds handlePhoneVerification of part_000 (lines 34-87): reject a
falsy phone or one whose length is not 10, draw the verification code,
then either send it through Twilio (500 if that fetch rejects or answers
non-2xx, 200 otherwise) when all three credentials are truthy, or answer
200 with the code in the body (demo mode) when any credential is absent. -/
def Mux.handlePhoneVerification (cfg : Config) (w : World) (b : ReqBody) :
    Reply × List OutboundCall :=
  if !(truthy b.phone) || (b.phone.getD "").length != 10 then
    ({ status := 400, body := { error := some "Invalid phone number" } }, [])
  else
    let code := natToDecimal (verificationCode w.rand)
    if truthy cfg.twilioAccountSid && truthy cfg.twilioAuthToken
        && truthy cfg.twilioPhoneNumber then
      if w.twilioResult.isOk then
        ({ status := 200,
           body := { success := some true,
                     message := some "Verification code sent" } }, [.twilio])
      else
        ({ status := 500,
           body := { error := some "Failed to send verification code" } },
         [.twilio])
    else
      ({ status := 200,
         body := { success := some true, code := some code,
                   message := some "Verification code sent (demo mode)" } }, [])

/-- Embeds the default export of part_000 (lines 4-29): 405 for non-POST
before any header is set, then the three CORS headers, then dispatch on
the action discriminator; unknown action answers 400.  The sub-handlers
of the embedding never throw, so the top-level catch is not a branch. -/
def Mux.handler (cfg : Config) (w : World) (req : Request) :
    HttpResponse × List OutboundCall :=
  if req.method != "POST" then
    ({ status := 405, headers := [],
       body := { error := some "Method not allowed" } }, [])
  else if req.body.action = some "sendVerification" then
    let r := Mux.handlePhoneVerification cfg w req.body
    ({ status := r.1.status, headers := corsHeaders, body := r.1.body }, r.2)
  else if req.body.action = some "submitLead" then
    let r := Mux.handleLeadSubmission cfg w req.body
    ({ status := r.1.status, headers := corsHeaders, body := r.1.body }, r.2)
  else
    ({ status := 400, headers := corsHeaders,
       body := { error := some "Invalid action" } }, [])

/- ==========================================================
   Email-only variant: src/api/submit-lead.js
   ========================================================== -/

/-- A character excluded by the regex class in the email pattern: at-sign
or whitespace. -/
def isEmailSpecial (c : Char) : Bool := c == '@' || c.isWhitespace

/-- No character of the list is an at-sign or whitespace. -/
def noSpecialChars (l : List Char) : Bool := l.all (fun c => !(isEmailSpecial c))

/-- The list has a dot that is neither its first nor its last element. -/
def hasInteriorDot (l : List Char) : Bool := ((l.drop 1).dropLast).contains '.'

/-- Embeds the test of the anchored email regex of submit-lead.js line 35
(one or more non-space non-at characters, an at-sign, one or more such
characters, a dot, one or more such characters): the string splits at its
only at-sign into a nonempty local part without whitespace and a domain
part without whitespace or at-signs holding an interior dot. -/
def emailRegexTest (s : String) : Bool :=
  let cs := s.data
  let locPart := cs.takeWhile (fun c => c != '@')
  let domPart := (cs.dropWhile (fun c => c != '@')).drop 1
  !locPart.isEmpty && noSpecialChars locPart &&
    !domPart.isEmpty && noSpecialChars domPart && hasInteriorDot domPart

/-- Embeds the try block of sendToLofty in submit-lead.js: fetch the
Lofty leads endpoint; transport failure rejects, non-2xx raises "Lofty
API error" after logging status and response text. -/
def EmailOnly.loftyTryBlock (w : World) : CallOutcome :=
  if w.loftyResult.isOk then .ok else .threw "Lofty API error"

/-- Embeds sendToLofty of submit-lead.js (lines 77-116): no API key skips
the integration; otherwise one fetch to Lofty is made and the catch block
logs without re-throwing, so the CRM call never throws to the caller. -/
def EmailOnly.sendToLofty (cfg : Config) (w : World) : List OutboundCall × CallOutcome :=
  if !(truthy cfg.loftyApiKey) then ([], .ok)
  else ([.lofty], catchAll (EmailOnly.loftyTryBlock w))

/-- Embeds the try block of sendAccessEmail in submit-lead.js: fetch the
Resend send endpoint; transport failure rejects, non-2xx raises "Resend
API error". -/
def EmailOnly.emailTryBlock (w : World) : CallOutcome :=
  if w.resendResult.isOk then .ok else .threw "Resend API error"

/-- Embeds sendAccessEmail of submit-lead.js (lines 121-152): when an API
key is present one fetch to Resend is made, and the catch block only logs,
falling through to the final log line; with no key the fetch is skipped.
Either way the function never throws to the caller. -/
def EmailOnly.sendAccessEmail (cfg : Config) (w : World) : List OutboundCall × CallOutcome :=
  if truthy cfg.resendApiKey then ([.resend], catchAll (EmailOnly.emailTryBlock w))
  else ([], .ok)

/-- Embeds handleLeadSubmission of submit-lead.js (lines 26-72): require
firstName, lastName and email truthy, then the email regex test, build
the access grant, run sendToLofty and sendAccessEmail under Promise.all,
answer 200 on normal completion and 500 "Failed to process lead" if the
pair rejected. -/
def EmailOnly.handleLeadSubmission (cfg : Config) (w : World) (b : ReqBody) :
    Reply × List OutboundCall :=
  if !(truthy b.firstName) || !(truthy b.lastName) || !(truthy b.email) then
    ({ status := 400, body := { error := some "Missing required fields" } }, [])
  else if !(emailRegexTest (b.email.getD "")) then
    ({ status := 400, body := { error := some "Invalid email format" } }, [])
  else
    let accessToken := generateAccessToken w.now w.randFrag
    let accessUrl := resolveGammaUrl cfg
        "https://new-builds-squamish-the--akehhlj.gamma.site/"
        ++ "?ref=" ++ accessToken
    let lofty := EmailOnly.sendToLofty cfg w
    let email := EmailOnly.sendAccessEmail cfg w
    match promiseAllOutcome lofty.2 email.2 with
    | .ok =>
      ({ status := 200,
         body := { success := some true, accessUrl := some accessUrl,
                   message := some "Lead processed successfully" } },
       lofty.1 ++ email.1)
    | .threw _ =>
      ({ status := 500, body := { error := some "Failed to process lead" } },
       lofty.1 ++ email.1)

/-- Embeds the default export of submit-lead.js (lines 4-21): 405 for
non-POST before any header is set, then the three CORS headers, then the
lead-submission handler directly (no action dispatch in this variant). -/
def EmailOnly.handler (cfg : Config) (w : World) (req : Request) :
    HttpResponse × List OutboundCall :=
  if req.method != "POST" then
    ({ status := 405, headers := [],
       body := { error := some "Method not allowed" } }, [])
  else
    let r := EmailOnly.handleLeadSubmission cfg w req.body
    ({ status := r.1.status, headers := corsHeaders, body := r.1.body }, r.2)

/- ==========================================================
   Concrete fixtures for witnesses
   ========================================================== -/

/-- A fully populated valid submission body, accepted by both variants. -/
def sampleLeadBody : ReqBody :=
  { action := some "submitLead", firstName := some "Jane", lastName := some "Doe",
    email := some "jane@example.com", phone := some "6045551234",
    source := some "website", timestamp := some "2025-10-01" }

/-- A POST request carrying the valid submission body. -/
def samplePostLead : Request := ⟨"POST", sampleLeadBody⟩

/-- A phone-verification body with a valid 10-character phone. -/
def sampleVerifyBody : ReqBody :=
  { action := some "sendVerification", phone := some "6045551234" }

/-- A POST request carrying the verification body. -/
def samplePostVerify : Request := ⟨"POST", sampleVerifyBody⟩

/-- A submission body with the firstName field absent. -/
def noFirstNameBody : ReqBody :=
  { action := some "submitLead", lastName := some "Doe",
    email := some "jane@example.com", phone := some "6045551234" }

/-- A POST request carrying the body with no firstName. -/
def samplePostNoFirstName : Request := ⟨"POST", noFirstNameBody⟩

/-- A submission body whose email has no at-sign. -/
def badEmailBody : ReqBody :=
  { firstName := some "Jane", lastName := some "Doe",
    email := some "jane.example.com" }

/-- A POST request carrying the malformed-email body. -/
def samplePostBadEmail : Request := ⟨"POST", badEmailBody⟩

/- ==========================================================
   Helper lemmas
   ========================================================== -/

/-- The CRM notifier of the multiplexed variant never throws. -/
theorem Mux.sendToLofty_never_throws (cfg : Config) (w : World) :
    (Mux.sendToLofty cfg w).2 = .ok := by
  unfold Mux.sendToLofty catchAll
  split <;> rfl

/-- The CRM notifier of the email-only variant never throws. -/
theorem EmailOnly.sendToLofty_swallows_errors (cfg : Config) (w : World) :
    (EmailOnly.sendToLofty cfg w).2 = .ok := by
  unfold EmailOnly.sendToLofty catchAll
  split <;> rfl

/-- The email dispatcher of the email-only variant never throws. -/
theorem EmailOnly.sendAccessEmail_no_throw (cfg : Config) (w : World) :
    (EmailOnly.sendAccessEmail cfg w).2 = .ok := by
  unfold EmailOnly.sendAccessEmail catchAll
  split <;> rfl

/-- With a Resend key configured and a failing Resend fetch, the email
dispatcher of the multiplexed variant throws. -/
theorem Mux.sendAccessEmail_throws (cfg : Config) (w : World)
    (hk : truthy cfg.resendApiKey = true) (hf : w.resendResult.isOk = false) :
    (Mux.sendAccessEmail cfg w).2 = .threw "Resend API error" := by
  unfold Mux.sendAccessEmail catchRethrow Mux.emailTryBlock
  simp [hk, hf]

/-- When the Resend fetch succeeds whenever it is attempted, the email
dispatcher of the multiplexed variant completes normally. -/
theorem Mux.sendAccessEmail_ok (cfg : Config) (w : World)
    (h : truthy cfg.resendApiKey = true → w.resendResult.isOk = true) :
    (Mux.sendAccessEmail cfg w).2 = .ok := by
  unfold Mux.sendAccessEmail catchRethrow Mux.emailTryBlock
  rcases Bool.eq_false_or_eq_true (truthy cfg.resendApiKey) with hk | hk
  · simp [hk, h hk]
  · simp [hk]

/- ==========================================================
   Claim theorems
   ========================================================== -/

/-- C1: in the multiplexed variant, for every valid lead submission, if
the email dispatcher fails (configured key with a non-2xx Resend response
or a transport failure), the overall response is 500 with the aggregate
error, whatever the CRM call does: the thrown email error propagates
through Promise.all to the submission handler. -/
theorem claim1_email_failure_forces_500
    (cfg : Config) (w : World) (req : Request)
    (hm : req.method = "POST")
    (ha : req.body.action = some "submitLead")
    (h1 : truthy req.body.firstName = true)
    (h2 : truthy req.body.lastName = true)
    (h3 : truthy req.body.email = true)
    (h4 : truthy req.body.phone = true)
    (hkey : truthy cfg.resendApiKey = true)
    (hfail : w.resendResult.isOk = false) :
    (Mux.handler cfg w req).1.status = 500 ∧
      (Mux.handler cfg w req).1.body.error = some "Failed to process lead" := by
  have hsl := Mux.sendToLofty_never_throws cfg w
  have hse := Mux.sendAccessEmail_throws cfg w hkey hfail
  simp [Mux.handler, hm, ha, Mux.handleLeadSubmission, h1, h2, h3, h4,
    hsl, hse, promiseAllOutcome]

/-- C1 witness at a concrete valid submission with a 500 from Resend. -/
theorem claim1_witness :
    (Mux.handler { resendApiKey := some "rk" } { resendResult := .response 500 }
        samplePostLead).1.status = 500 ∧
      (Mux.handler { resendApiKey := some "rk" } { resendResult := .response 500 }
        samplePostLead).1.body.error = some "Failed to process lead" :=
  claim1_email_failure_forces_500 _ _ _ rfl rfl (by decide) (by decide)
    (by decide) (by decide) (by decide) (by decide)

/-- C2: in the multiplexed variant, for every valid lead submission where
the CRM fetch answers a non-2xx status but email dispatch succeeds
whenever attempted, the overall response is still a 200 success: the CRM
notifier catches its own error and never re-throws. -/
theorem claim2_crm_failure_still_success
    (cfg : Config) (w : World) (req : Request) (s : Nat)
    (hm : req.method = "POST")
    (ha : req.body.action = some "submitLead")
    (h1 : truthy req.body.firstName = true)
    (h2 : truthy req.body.lastName = true)
    (h3 : truthy req.body.email = true)
    (h4 : truthy req.body.phone = true)
    (hkey : truthy cfg.loftyApiKey = true)
    (hcrm : w.loftyResult = .response s)
    (hbad : ¬(200 ≤ s ∧ s ≤ 299))
    (hemail : truthy cfg.resendApiKey = true → w.resendResult.isOk = true) :
    (Mux.handler cfg w req).1.status = 200 ∧
      (Mux.handler cfg w req).1.body.success = some true := by
  have hsl := Mux.sendToLofty_never_throws cfg w
  have hse := Mux.sendAccessEmail_ok cfg w hemail
  simp [Mux.handler, hm, ha, Mux.handleLeadSubmission, h1, h2, h3, h4,
    hsl, hse, promiseAllOutcome]

/-- C2 witness: CRM key configured, Lofty answers 503, Resend answers
200; the submission still succeeds. -/
theorem claim2_witness :
    (Mux.handler { loftyApiKey := some "lk", resendApiKey := some "rk" }
        { loftyResult := .response 503, resendResult := .response 200 }
        samplePostLead).1.status = 200 ∧
      (Mux.handler { loftyApiKey := some "lk", resendApiKey := some "rk" }
        { loftyResult := .response 503, resendResult := .response 200 }
        samplePostLead).1.body.success = some true :=
  claim2_crm_failure_still_success _ _ _ 503 rfl rfl (by decide) (by decide)
    (by decide) (by decide) (by decide) rfl (by decide) (fun _ => by decide)

/-- C3: in the email-only variant, every submission that passes field and
email-format validation gets a 200 success whatever the CRM and email
fetches do: both sendToLofty and sendAccessEmail swallow their errors, so
the 500 branch after Promise.all never runs. -/
theorem claim3_email_only_valid_always_200
    (cfg : Config) (w : World) (req : Request)
    (hm : req.method = "POST")
    (h1 : truthy req.body.firstName = true)
    (h2 : truthy req.body.lastName = true)
    (h3 : truthy req.body.email = true)
    (he : emailRegexTest (req.body.email.getD "") = true) :
    (EmailOnly.handler cfg w req).1.status = 200 ∧
      (EmailOnly.handler cfg w req).1.body.success = some true := by
  have hsl := EmailOnly.sendToLofty_swallows_errors cfg w
  have hse := EmailOnly.sendAccessEmail_no_throw cfg w
  simp [EmailOnly.handler, hm, EmailOnly.handleLeadSubmission, h1, h2, h3, he,
    hsl, hse, promiseAllOutcome]

/-- C3 witness: a valid submission succeeds even though both configured
integrations fail (Lofty transport error, Resend 500). -/
theorem claim3_witness :
    (EmailOnly.handler { loftyApiKey := some "lk", resendApiKey := some "rk" }
        { loftyResult := .transportError, resendResult := .response 500 }
        samplePostLead).1.status = 200 ∧
      (EmailOnly.handler { loftyApiKey := some "lk", resendApiKey := some "rk" }
        { loftyResult := .transportError, resendResult := .response 500 }
        samplePostLead).1.body.success = some true :=
  claim3_email_only_valid_always_200 _ _ _ rfl (by decide) (by decide)
    (by decide) (by decide)

/-- C4: a submission missing a required field draws a 400 and no outbound
call in either variant: firstName, lastName or email falsy in the
email-only variant, those or phone falsy in the multiplexed variant. -/
theorem claim4_missing_fields_400_no_calls
    (cfg : Config) (w : World) (req : Request)
    (hm : req.method = "POST") :
    (¬(truthy req.body.firstName = true ∧ truthy req.body.lastName = true ∧
        truthy req.body.email = true) →
      (EmailOnly.handler cfg w req).1.status = 400 ∧
        (EmailOnly.handler cfg w req).2 = []) ∧
    (req.body.action = some "submitLead" →
      ¬(truthy req.body.firstName = true ∧ truthy req.body.lastName = true ∧
          truthy req.body.email = true ∧ truthy req.body.phone = true) →
      (Mux.handler cfg w req).1.status = 400 ∧
        (Mux.handler cfg w req).2 = []) := by
  constructor
  · intro hmiss
    have hcond : (!(truthy req.body.firstName) || !(truthy req.body.lastName)
        || !(truthy req.body.email)) = true := by
      by_contra hc
      apply hmiss
      simp only [Bool.or_eq_true, Bool.not_eq_true', not_or, Bool.not_eq_false] at hc
      tauto
    simp [EmailOnly.handler, hm, EmailOnly.handleLeadSubmission, hcond]
  · intro ha hmiss
    have hcond : (!(truthy req.body.firstName) || !(truthy req.body.lastName)
        || !(truthy req.body.email) || !(truthy req.body.phone)) = true := by
      by_contra hc
      apply hmiss
      simp only [Bool.or_eq_true, Bool.not_eq_true', not_or, Bool.not_eq_false] at hc
      tauto
    simp [Mux.handler, hm, ha, Mux.handleLeadSubmission, hcond]

/-- C4 witness: a body with no firstName is rejected with 400 and no
outbound call by both variants. -/
theorem claim4_witness :
    (EmailOnly.handler {} {} samplePostNoFirstName).1.status = 400 ∧
      (EmailOnly.handler {} {} samplePostNoFirstName).2 = [] ∧
      (Mux.handler {} {} samplePostNoFirstName).1.status = 400 ∧
      (Mux.handler {} {} samplePostNoFirstName).2 = [] := by
  have t := claim4_missing_fields_400_no_calls {} {} samplePostNoFirstName rfl
  exact ⟨(t.1 (by decide)).1, (t.1 (by decide)).2,
    (t.2 rfl (by decide)).1, (t.2 rfl (by decide)).2⟩

/-- C5: in the email-only variant (the variant that validates format), a
submission whose email fails the regex test draws a 400 and no outbound
call; a missing or empty email also fails the test and is likewise
rejected by the required-fields check. -/
theorem claim5_bad_email_400_no_calls
    (cfg : Config) (w : World) (req : Request)
    (hm : req.method = "POST")
    (hreg : emailRegexTest (req.body.email.getD "") = false) :
    (EmailOnly.handler cfg w req).1.status = 400 ∧
      (EmailOnly.handler cfg w req).2 = [] := by
  by_cases hc : (!(truthy req.body.firstName) || !(truthy req.body.lastName)
      || !(truthy req.body.email)) = true
  · simp [EmailOnly.handler, hm, EmailOnly.handleLeadSubmission, hc]
  · have hc' := Bool.not_eq_true _ |>.mp hc
    simp [EmailOnly.handler, hm, EmailOnly.handleLeadSubmission, hc', hreg]

/-- C5 witness: an email with no at-sign is rejected with 400 and no
outbound call even with both integrations configured. -/
theorem claim5_witness :
    (EmailOnly.handler { loftyApiKey := some "lk", resendApiKey := some "rk" }
        { resendResult := .response 200 } samplePostBadEmail).1.status = 400 ∧
      (EmailOnly.handler { loftyApiKey := some "lk", resendApiKey := some "rk" }
        { resendResult := .response 200 } samplePostBadEmail).2 = [] :=
  claim5_bad_email_400_no_calls _ _ _ rfl (by decide)

/-- Each base-36 digit below 36 renders to a 0-9 or a-z character. -/
theorem base36Char_valid : ∀ d, d < 36 → isBase36Char (base36Char d) = true := by
  decide

/-- Base-36 accumulation only prepends base-36 digit characters. -/
theorem base36Core_all_valid (fuel : Nat) :
    ∀ n acc, acc.all isBase36Char = true →
      (base36Core fuel n acc).all isBase36Char = true := by
  induction fuel with
  | zero => intro n acc h; simpa [base36Core] using h
  | succ f ih =>
    intro n acc h
    have hd : isBase36Char (base36Char (n % 36)) = true :=
      base36Char_valid (n % 36) (Nat.mod_lt _ (by norm_num))
    rw [base36Core]
    split
    · simp [List.all_cons, hd, h]
    · exact ih (n / 36) _ (by simp [List.all_cons, hd, h])

/-- The rendered base-36 string contains only 0-9 and a-z characters. -/
theorem natToBase36_valid (n : Nat) : isBase36String (natToBase36 n) = true :=
  base36Core_all_valid (n + 1) n [] rfl

/-- C6: in the email-only variant, every valid submission gets a success
response whose accessUrl is the resolved guide base URL followed by
"?ref=" and the generated access token; the URL is non-empty and the
token is two base-36 strings joined by a hyphen (the random fragment of
Math.random().toString(36).substring(2, 15) being a base-36 string by
assumption on the draw). -/
theorem claim6_access_url_token_form
    (cfg : Config) (w : World) (req : Request)
    (hm : req.method = "POST")
    (h1 : truthy req.body.firstName = true)
    (h2 : truthy req.body.lastName = true)
    (h3 : truthy req.body.email = true)
    (he : emailRegexTest (req.body.email.getD "") = true)
    (hfrag : isBase36String w.randFrag = true) :
    (EmailOnly.handler cfg w req).1.status = 200 ∧
      (EmailOnly.handler cfg w req).1.body.accessUrl =
        some (resolveGammaUrl cfg
          "https://new-builds-squamish-the--akehhlj.gamma.site/"
          ++ "?ref=" ++ generateAccessToken w.now w.randFrag) ∧
      0 < (resolveGammaUrl cfg
          "https://new-builds-squamish-the--akehhlj.gamma.site/"
          ++ "?ref=" ++ generateAccessToken w.now w.randFrag).length ∧
      (∃ a b, generateAccessToken w.now w.randFrag = a ++ "-" ++ b ∧
        isBase36String a = true ∧ isBase36String b = true) := by
  have hsl := EmailOnly.sendToLofty_swallows_errors cfg w
  have hse := EmailOnly.sendAccessEmail_no_throw cfg w
  refine ⟨?_, ?_, ?_, ?_⟩
  · simp [EmailOnly.handler, hm, EmailOnly.handleLeadSubmission, h1, h2, h3, he,
      hsl, hse, promiseAllOutcome]
  · simp [EmailOnly.handler, hm, EmailOnly.handleLeadSubmission, h1, h2, h3, he,
      hsl, hse, promiseAllOutcome]
  · have h5 : ("?ref=" : String).length = 5 := rfl
    simp only [String.length_append, h5]
    omega
  · exact ⟨natToBase36 w.now, w.randFrag, rfl, natToBase36_valid w.now, hfrag⟩

/-- C6 witness at a concrete valid submission with Date.now 1234567890
and random fragment "k3j9x2". -/
theorem claim6_witness :
    (EmailOnly.handler {} { now := 1234567890, randFrag := "k3j9x2" }
        samplePostLead).1.status = 200 ∧
      (EmailOnly.handler {} { now := 1234567890, randFrag := "k3j9x2" }
        samplePostLead).1.body.accessUrl =
        some (resolveGammaUrl {}
          "https://new-builds-squamish-the--akehhlj.gamma.site/"
          ++ "?ref=" ++ generateAccessToken 1234567890 "k3j9x2") ∧
      0 < (resolveGammaUrl {}
          "https://new-builds-squamish-the--akehhlj.gamma.site/"
          ++ "?ref=" ++ generateAccessToken 1234567890 "k3j9x2").length ∧
      (∃ a b, generateAccessToken 1234567890 "k3j9x2" = a ++ "-" ++ b ∧
        isBase36String a = true ∧ isBase36String b = true) :=
  claim6_access_url_token_form {} { now := 1234567890, randFrag := "k3j9x2" }
    samplePostLead rfl (by decide) (by decide) (by decide) (by decide) (by decide)

/-- Each decimal digit below 10 renders to a 0-9 character. -/
theorem digitChar10_isDigit : ∀ d, d < 10 → (digitChar10 d).isDigit = true := by
  decide

/-- Decimal accumulation only prepends digit characters. -/
theorem decimalCore_all_digits (fuel : Nat) :
    ∀ n acc, acc.all Char.isDigit = true →
      (decimalCore fuel n acc).all Char.isDigit = true := by
  induction fuel with
  | zero => intro n acc h; simpa [decimalCore] using h
  | succ f ih =>
    intro n acc h
    have hd : (digitChar10 (n % 10)).isDigit = true :=
      digitChar10_isDigit (n % 10) (Nat.mod_lt _ (by norm_num))
    rw [decimalCore]
    split
    · simp [List.all_cons, hd, h]
    · exact ih (n / 10) _ (by simp [List.all_cons, hd, h])

/-- A number with k+1 decimal digits renders, with enough fuel, to k+1
characters prepended to the accumulator. -/
theorem decimalCore_length (k : Nat) :
    ∀ fuel n acc, 10 ^ k ≤ n → n < 10 ^ (k + 1) → k ≤ fuel →
      (decimalCore (fuel + 1) n acc).length = acc.length + (k + 1) := by
  induction k with
  | zero =>
    intro fuel n acc h1 h2 _
    have hz : n / 10 = 0 := Nat.div_eq_of_lt (by simpa using h2)
    rw [decimalCore]
    simp [hz]
  | succ k ih =>
    intro fuel n acc h1 h2 hf
    obtain ⟨f, rfl⟩ : ∃ f, fuel = f + 1 := ⟨fuel - 1, by omega⟩
    have hlow : 10 ^ k ≤ n / 10 := by
      rw [Nat.le_div_iff_mul_le (by norm_num)]
      calc 10 ^ k * 10 = 10 ^ (k + 1) := by ring
        _ ≤ n := h1
    have hhigh : n / 10 < 10 ^ (k + 1) := by
      rw [Nat.div_lt_iff_lt_mul (by norm_num)]
      calc n < 10 ^ (k + 2) := h2
        _ = 10 ^ (k + 1) * 10 := by ring
    have hnz : ¬(n / 10 = 0) := by
      have : 0 < 10 ^ k := Nat.pos_pow_of_pos k (by norm_num)
      omega
    rw [decimalCore]
    simp only [hnz, if_false]
    have := ih f (n / 10) (digitChar10 (n % 10) :: acc) hlow hhigh (by omega)
    simp only [List.length_cons] at this
    omega

/-- C8: the verification code drawn by the phone-verification handler
from a Math.random() value in the unit interval is a number in the range
100000 to 999999 whose rendering is a 6-character all-digit string. -/
theorem claim8_code_range_six_digits (r : ℚ) (h0 : 0 ≤ r) (h1 : r < 1) :
    100000 ≤ verificationCode r ∧ verificationCode r ≤ 999999 ∧
      (natToDecimal (verificationCode r)).length = 6 ∧
      (natToDecimal (verificationCode r)).data.all Char.isDigit = true := by
  have hfl : (100000 : ℤ) ≤ Int.floor ((100000 : ℚ) + r * 900000) := by
    apply Int.le_floor.mpr
    push_cast
    nlinarith
  have hfu : Int.floor ((100000 : ℚ) + r * 900000) < 1000000 := by
    apply Int.floor_lt.mpr
    push_cast
    nlinarith
  have hn1 : 100000 ≤ verificationCode r := by unfold verificationCode; omega
  have hn2 : verificationCode r ≤ 999999 := by unfold verificationCode; omega
  refine ⟨hn1, hn2, ?_, ?_⟩
  · have hlen := decimalCore_length 5 (verificationCode r) (verificationCode r)
      [] (by norm_num [hn1] : 10 ^ 5 ≤ verificationCode r)
      (by norm_num; omega) (by omega)
    simpa [natToDecimal, String.length] using hlen
  · exact decimalCore_all_digits (verificationCode r + 1) (verificationCode r) [] rfl

/-- C8 witness at the draw one half: the code is 550000, six digits. -/
theorem claim8_witness :
    100000 ≤ verificationCode (1 / 2) ∧ verificationCode (1 / 2) ≤ 999999 ∧
      (natToDecimal (verificationCode (1 / 2))).length = 6 ∧
      (natToDecimal (verificationCode (1 / 2))).data.all Char.isDigit = true :=
  claim8_code_range_six_digits (1 / 2) (by norm_num) (by norm_num)

/-- A verification body whose phone is 10 characters but not digits. -/
def letterPhoneBody : ReqBody :=
  { action := some "sendVerification", phone := some "abcdefghij" }

/-- A POST request carrying the all-letter phone. -/
def samplePostLetterPhone : Request := ⟨"POST", letterPhoneBody⟩

/-- C7 counterexample: the handler checks only phone.length, not digits:
the 10-letter phone "abcdefghij" is not rejected with 400 as the claim
demands but answered 200 (demo mode), though no character is a digit. -/
theorem claim7_counterexample :
    (Mux.handler {} {} samplePostLetterPhone).1.status = 200 ∧
      ("abcdefghij" : String).data.all Char.isDigit = false := by
  exact ⟨rfl, by decide⟩

/-- C7 as amended: the phone-verification path answers 400 exactly when
the phone field is missing, empty, or not a string of exactly 10
characters (their being digits is not checked); otherwise it proceeds to
generate a verification code. -/
theorem claim7_phone_length_gate
    (cfg : Config) (w : World) (req : Request)
    (hm : req.method = "POST")
    (ha : req.body.action = some "sendVerification") :
    (Mux.handler cfg w req).1.status = 400 ↔
      ¬(truthy req.body.phone = true ∧
        (req.body.phone.getD "").length = 10) := by
  have hred : (Mux.handler cfg w req).1.status =
      (Mux.handlePhoneVerification cfg w req.body).1.status := by
    simp [Mux.handler, hm, ha]
  rw [hred]
  by_cases hc : (!(truthy req.body.phone)
      || (req.body.phone.getD "").length != 10) = true
  · simp only [Mux.handlePhoneVerification, hc, if_true]
    simp only [true_iff]
    rintro ⟨hA, hB⟩
    simp [hA, hB] at hc
  · have hc' := Bool.not_eq_true _ |>.mp hc
    have hAB : truthy req.body.phone = true ∧
        (req.body.phone.getD "").length = 10 := by
      simpa using hc'
    simp only [hAB, and_self, not_true, iff_false]
    simp only [Mux.handlePhoneVerification, hc', Bool.false_eq_true, if_false]
    split
    · split <;> simp
    · simp

/-- C7 amended witness at a missing phone: the gate answers 400. -/
theorem claim7_witness :
    (Mux.handler {} {} ⟨"POST", { action := some "sendVerification" }⟩).1.status
        = 400 ↔
      ¬(truthy (Request.mk "POST" { action := some "sendVerification" }).body.phone
          = true ∧
        ((Request.mk "POST"
          { action := some "sendVerification" }).body.phone.getD "").length = 10) :=
  claim7_phone_length_gate {} {} ⟨"POST", { action := some "sendVerification" }⟩
    rfl rfl

/-- C9: with a valid phone and any of the three Twilio credentials absent
from configuration, the verification handler answers 200 success with the
generated code itself in the JSON body (demo mode). -/
theorem claim9_demo_mode_returns_code
    (cfg : Config) (w : World) (req : Request)
    (hm : req.method = "POST")
    (ha : req.body.action = some "sendVerification")
    (hp : truthy req.body.phone = true)
    (hl : (req.body.phone.getD "").length = 10)
    (hcred : (truthy cfg.twilioAccountSid && truthy cfg.twilioAuthToken
        && truthy cfg.twilioPhoneNumber) = false) :
    (Mux.handler cfg w req).1.status = 200 ∧
      (Mux.handler cfg w req).1.body.code =
        some (natToDecimal (verificationCode w.rand)) ∧
      (Mux.handler cfg w req).1.body.success = some true := by
  simp [Mux.handler, hm, ha, Mux.handlePhoneVerification, hp, hl, hcred]

/-- C9 witness: no credentials configured, valid 10-character phone. -/
theorem claim9_witness :
    (Mux.handler {} {} samplePostVerify).1.status = 200 ∧
      (Mux.handler {} {} samplePostVerify).1.body.code =
        some (natToDecimal (verificationCode (World.rand {}))) ∧
      (Mux.handler {} {} samplePostVerify).1.body.success = some true :=
  claim9_demo_mode_returns_code {} {} samplePostVerify rfl rfl (by decide)
    (by decide) (by decide)

/-- C10 counterexample: a GET request is rejected 405 before any header
is set, so its response carries none of the cross-origin allowances,
against the claim that every inbound request gets them. -/
theorem claim10_counterexample :
    (Mux.handler {} {} ⟨"GET", {}⟩).1.status = 405 ∧
      ¬(("Access-Control-Allow-Origin", "*")
          ∈ (Mux.handler {} {} ⟨"GET", {}⟩).1.headers) ∧
      (EmailOnly.handler {} {} ⟨"GET", {}⟩).1.status = 405 ∧
      ¬(("Access-Control-Allow-Origin", "*")
          ∈ (EmailOnly.handler {} {} ⟨"GET", {}⟩).1.headers) := by
  refine ⟨rfl, ?_, rfl, ?_⟩ <;> decide

/-- C10 as amended: every POST request, in both variants and in every
branch (verification, submission, invalid action, validation failure,
processing failure), gets the three permissive cross-origin headers;
only the non-POST 405 rejection lacks them. -/
theorem claim10_cors_on_post
    (cfg : Config) (w : World) (req : Request)
    (hm : req.method = "POST") :
    (("Access-Control-Allow-Origin", "*")
        ∈ (Mux.handler cfg w req).1.headers ∧
      ("Access-Control-Allow-Methods", "POST")
        ∈ (Mux.handler cfg w req).1.headers ∧
      ("Access-Control-Allow-Headers", "Content-Type")
        ∈ (Mux.handler cfg w req).1.headers) ∧
    (("Access-Control-Allow-Origin", "*")
        ∈ (EmailOnly.handler cfg w req).1.headers ∧
      ("Access-Control-Allow-Methods", "POST")
        ∈ (EmailOnly.handler cfg w req).1.headers ∧
      ("Access-Control-Allow-Headers", "Content-Type")
        ∈ (EmailOnly.handler cfg w req).1.headers) := by
  have hmux : (Mux.handler cfg w req).1.headers = corsHeaders := by
    simp only [Mux.handler, hm, bne_self_eq_false, Bool.false_eq_true, if_false]
    split
    · rfl
    · split <;> rfl
  have heo : (EmailOnly.handler cfg w req).1.headers = corsHeaders := by
    simp only [EmailOnly.handler, hm, bne_self_eq_false, Bool.false_eq_true,
      if_false]
  rw [hmux, heo]
  refine ⟨⟨?_, ?_, ?_⟩, ?_, ?_, ?_⟩ <;> decide

/-- C10 amended witness at a concrete POST request. -/
theorem claim10_witness :
    (("Access-Control-Allow-Origin", "*")
        ∈ (Mux.handler {} {} samplePostLead).1.headers ∧
      ("Access-Control-Allow-Methods", "POST")
        ∈ (Mux.handler {} {} samplePostLead).1.headers ∧
      ("Access-Control-Allow-Headers", "Content-Type")
        ∈ (Mux.handler {} {} samplePostLead).1.headers) ∧
    (("Access-Control-Allow-Origin", "*")
        ∈ (EmailOnly.handler {} {} samplePostLead).1.headers ∧
      ("Access-Control-Allow-Methods", "POST")
        ∈ (EmailOnly.handler {} {} samplePostLead).1.headers ∧
      ("Access-Control-Allow-Headers", "Content-Type")
        ∈ (EmailOnly.handler {} {} samplePostLead).1.headers) :=
  claim10_cors_on_post {} {} samplePostLead rfl
